import Mathlib

/-!
Verification development for the HVAC-Tools psychrometric calculator.

The repository contains two parallel calculation-function sets:
`src/script.js` (embedded below in namespace `ScriptJs`) and
`src/unnamed/part_001` (namespace `Part001`), plus a batch CSV runner
`src/unnamed/part_000` (namespace `CSVProcessor`).

Modelling conventions:
* JavaScript numbers are embedded as real numbers `ℝ`; `Math.pow` is `Real`
  power (`rpow`), `Math.log10` is `Real.logb 10`, `Math.min`/`Math.max` are
  `min`/`max`.
* `formatNumber(num, d) = parseFloat(num.toFixed(d))` is embedded as
  `roundTo d`, rounding to `d` decimal places.
* The iterative solvers' `for`-loops with an early `break` on convergence are
  embedded as bounded iteration of the loop body: the body returns its
  argument unchanged exactly when the convergence test holds, so iterating
  the body for the full budget computes the same value as breaking early.
* JavaScript exceptions in the batch runner are embedded by parametrising the
  per-row computation with an `Except`-valued function.
-/

noncomputable section

/-- Eight-field result object assembled by `calculatePsychrometricProperties`
(the numeric values of the formatted fields of the returned record). -/
structure AirState where
  dbt : ℝ
  wbt : ℝ
  rh : ℝ
  dpt : ℝ
  humidityRatio : ℝ
  enthalpy : ℝ
  specificVolume : ℝ
  vaporPressure : ℝ

/-- Intermediate state of the orchestrator's `switch`: the five locals
`dbt, wbt, rh, dpt, hr` before post-processing. -/
structure RawState where
  dbt : ℝ
  wbt : ℝ
  rh : ℝ
  dpt : ℝ
  hr : ℝ

/-- Embedding of `formatNumber(num, decimals)`: the numeric value of
`parseFloat(num.toFixed(decimals))`, i.e. rounding to `decimals` decimal
places.  (JavaScript rounds ties away from zero while `round` rounds ties
up; the two agree except on exact negative ties, which no claim touches.) -/
def roundTo (decimals : ℕ) (x : ℝ) : ℝ :=
  (round (x * 10 ^ decimals) : ℤ) / 10 ^ decimals

namespace ScriptJs

/-- Gas constant for dry air, J/(kg·K) (`R_AIR` in `src/script.js`). -/
def R_AIR : ℝ := 287.055

/-- Specific heat capacity of dry air, J/(kg·K) (`CP_AIR`). -/
def CP_AIR : ℝ := 1006

/-- Latent heat of vaporization of water at 0 °C, J/kg (`HVAP`). -/
def HVAP : ℝ := 2501000

/-- Antoine coefficient A (`ANTOINE_A`). -/
def ANTOINE_A : ℝ := 8.07131

/-- Antoine coefficient B (`ANTOINE_B`). -/
def ANTOINE_B : ℝ := 1730.63

/-- Antoine coefficient C (`ANTOINE_C`). -/
def ANTOINE_C : ℝ := 233.426

/-- Conversion factor mmHg → kPa (`MMHG_TO_KPA`). -/
def MMHG_TO_KPA : ℝ := 0.133322

/-- Molecular weight ratio of water to dry air (` MW_RATIO`). -/
def MW_RATIO : ℝ := 0.621945

/-- Standard sea-level pressure, kPa (`STANDARD_PRESSURE`). -/
def STANDARD_PRESSURE : ℝ := 101.325

/-- Tropospheric lapse rate, K/m (`LAPSE_RATE`). -/
def LAPSE_RATE : ℝ := 0.0065

/-- Standard sea-level temperature, K (`STANDARD_TEMP_K`). -/
def STANDARD_TEMP_K : ℝ := 288.15

/-- Pressure exponent for the altitude correction (`PRESSURE_EXPONENT`). -/
def PRESSURE_EXPONENT : ℝ := 5.255

/-- Specific heat of water vapor, kJ/(kg·K) (`CP_VAPOR`). -/
def CP_VAPOR : ℝ := 1.86

/-- Conversion factor J → kJ (`JOULE_TO_KILOJOULE`). -/
def JOULE_TO_KILOJOULE : ℝ := 0.001

/-- `saturatedVaporPressure(temp)` from `src/script.js` lines 117-124:
Antoine equation in mmHg, converted to kPa. -/
def saturatedVaporPressure (temp : ℝ) : ℝ :=
  let logP := ANTOINE_A - ANTOINE_B / (ANTOINE_C + temp)
  let p_mmHg := (10 : ℝ) ^ logP
  p_mmHg * MMHG_TO_KPA

/-- `barometricPressure(altitude)` from `src/script.js` lines 136-139. -/
def barometricPressure (altitude : ℝ) : ℝ :=
  STANDARD_PRESSURE * (1 - (LAPSE_RATE * altitude) / STANDARD_TEMP_K) ^ PRESSURE_EXPONENT

/-- `calculateHumidityRatio(dbt, wbt, pressure)` from `src/script.js`
lines 152-163: ASHRAE approximation from dry-bulb and wet-bulb. -/
def calculateHumidityRatio (dbt wbt pressure : ℝ) : ℝ :=
  let p_ws_wbt := saturatedVaporPressure wbt
  let w_ws_wbt := ( MW_RATIO * p_ws_wbt) / (pressure - p_ws_wbt)
  let numerator := (1093 - 0.556 * wbt) * w_ws_wbt - 0.240 * (dbt - wbt)
  let denominator := 1093 + 0.444 * dbt - wbt
  numerator / denominator

/-- `calculateRelativeHumidity(dbt, humidityRatio, pressure)` from
`src/script.js` lines 176-182, clamped to [0, 100]. -/
def calculateRelativeHumidity (dbt humidityRatio pressure : ℝ) : ℝ :=
  let p_ws := saturatedVaporPressure dbt
  let p_w := (humidityRatio * pressure) / ( MW_RATIO + humidityRatio)
  min 100 (max 0 ((p_w / p_ws) * 100))

/-- `calculateDewPoint(humidityRatio, pressure)` from `src/script.js`
lines 190-198: inverse Antoine equation on the vapor partial pressure. -/
def calculateDewPoint (humidityRatio pressure : ℝ) : ℝ :=
  let p_w := (humidityRatio * pressure) / (0.621945 + humidityRatio)
  let logP := Real.logb 10 (p_w / 0.133322)
  ANTOINE_B / (ANTOINE_A - logP) - ANTOINE_C

/-- `calculateEnthalpy(dbt, humidityRatio)` from `src/script.js`
lines 210-216. -/
def calculateEnthalpy (dbt humidityRatio : ℝ) : ℝ :=
  let hvap_kj := HVAP * JOULE_TO_KILOJOULE
  (CP_AIR * JOULE_TO_KILOJOULE) * dbt + humidityRatio * (hvap_kj + CP_VAPOR * dbt)

/-- `calculateSpecificVolume(dbt, humidityRatio, pressure)` from
`src/script.js` lines 225-232. -/
def calculateSpecificVolume (dbt humidityRatio pressure : ℝ) : ℝ :=
  let tempK := dbt + 273.15
  let p_w := (humidityRatio * pressure) / (0.621945 + humidityRatio)
  let p_dry := pressure - p_w
  (R_AIR * tempK) / (p_dry * 1000)

/-- `calculateHumidityRatioFromDBTRH(dbt, rh, pressure)` from
`src/script.js` lines 283-287. -/
def calculateHumidityRatioFromDBTRH (dbt rh pressure : ℝ) : ℝ :=
  let p_ws := saturatedVaporPressure dbt
  let p_w := (rh / 100) * p_ws
  ( MW_RATIO * p_w) / (pressure - p_w)

/-- Constraint applied after each update in `calculateWetBulbFromDBTRH`
(`src/script.js` lines 263-267): clamp the iterate to [−50, dbt]. -/
def wbtRhClamp (dbt w : ℝ) : ℝ :=
  if dbt < w then dbt else if w < -50 then -50 else w

/-- Loop body of `calculateWetBulbFromDBTRH` (`src/script.js` lines 251-268):
returns the iterate unchanged once `|target − f(w)| < 0.01` (the `break`),
otherwise applies the gain-10 update and the clamp. -/
def wbtRhBody (dbt pressure target w : ℝ) : ℝ :=
  let difference := target - calculateHumidityRatio dbt w pressure
  if |difference| < 0.01 then w else wbtRhClamp dbt (w + difference * 10)

/-- `calculateWetBulbFromDBTRH(dbt, rh, pressure)` from `src/script.js`
lines 241-271: at most 50 iterations starting from `dbt`. -/
def calculateWetBulbFromDBTRH (dbt rh pressure : ℝ) : ℝ :=
  let hr_from_rh := calculateHumidityRatioFromDBTRH dbt rh pressure
  (wbtRhBody dbt pressure hr_from_rh)^[50] dbt

/-- `calculateHumidityRatioFromDewPoint(dpt, pressure)` from
`src/script.js` lines 334-337. -/
def calculateHumidityRatioFromDewPoint (dpt pressure : ℝ) : ℝ :=
  let p_w := saturatedVaporPressure dpt
  (0.621945 * p_w) / (pressure - p_w)

/-- `calculateRelativeHumidityFromDewPoint(dbt, dpt)` from `src/script.js`
lines 345-349, clamped to [0, 100]. -/
def calculateRelativeHumidityFromDewPoint (dbt dpt : ℝ) : ℝ :=
  let p_ws := saturatedVaporPressure dbt
  let p_w := saturatedVaporPressure dpt
  min 100 (max 0 ((p_w / p_ws) * 100))

/-- Constraint applied after each update in `calculateWetBulbFromDBTDewPoint`
(`src/script.js` lines 318-322): clamp the iterate to [dpt, dbt]. -/
def wbtDptClamp (dbt dpt w : ℝ) : ℝ :=
  if dbt < w then dbt else if w < dpt then dpt else w

/-- Loop body of `calculateWetBulbFromDBTDewPoint` (`src/script.js`
lines 306-323): returns the iterate unchanged once `|target − f(w)| < 0.01`
(the `break`), otherwise applies the update `w -= difference * 5`
(note the subtraction in the source) and the clamp. -/
def wbtDptBody (dbt dpt pressure target w : ℝ) : ℝ :=
  let difference := target - calculateHumidityRatio dbt w pressure
  if |difference| < 0.01 then w else wbtDptClamp dbt dpt (w - difference * 5)

/-- `calculateWetBulbFromDBTDewPoint(dbt, dpt, pressure)` from
`src/script.js` lines 296-326: at most 50 iterations seeded at the midpoint
`(dbt + dpt) / 2`. -/
def calculateWetBulbFromDBTDewPoint (dbt dpt pressure : ℝ) : ℝ :=
  let hr_from_dpt := calculateHumidityRatioFromDewPoint dpt pressure
  (wbtDptBody dbt dpt pressure hr_from_dpt)^[50] ((dbt + dpt) / 2)

/-- Target humidity ratio of `solveDBTFromWBTRH` (`src/script.js` line 367). -/
def solveTargetHR (wbt rh pressure : ℝ) : ℝ :=
  (0.621945 * (rh / 100) * saturatedVaporPressure wbt) /
    (pressure - (rh / 100) * saturatedVaporPressure wbt)

/-- Constraint applied after each Newton update in `solveDBTFromWBTRH`
(`src/script.js` lines 396-400): clamp the iterate to [wbt−10, wbt+50]. -/
def newtonClamp (wbt d : ℝ) : ℝ :=
  if d < wbt - 10 then wbt - 10 else if wbt + 50 < d then wbt + 50 else d

/-- Loop body of the Newton-Raphson loop in `solveDBTFromWBTRH`
(`src/script.js` lines 369-401): returns the iterate unchanged once
`|f(d) − target| < 0.001` (the `break`); otherwise a forward-difference
Newton step (bisection toward `wbt` when the derivative estimate is tiny),
then the clamp. -/
def newtonBody (wbt pressure target d : ℝ) : ℝ :=
  let currentHR := calculateHumidityRatio d wbt pressure
  let err := currentHR - target
  if |err| < 0.001 then d
  else
    let delta := 0.001
    let hrPlus := calculateHumidityRatio (d + delta) wbt pressure
    let derivative := (hrPlus - currentHR) / delta
    let next := if 1e-10 < |derivative| then d - err / derivative else (d + wbt) / 2
    newtonClamp wbt next

/-- `solveDBTFromWBTRH(wbt, rh, pressure)` from `src/script.js`
lines 359-413: at most 100 Newton iterations from `wbt + (100−rh)/4`, then
the final relative-error validation with the linear fallback
`wbt + (100−rh)/3`. -/
def solveDBTFromWBTRH (wbt rh pressure : ℝ) : ℝ :=
  let target := solveTargetHR wbt rh pressure
  let d := (newtonBody wbt pressure target)^[100] (wbt + (100 - rh) / 4)
  let finalHR := calculateHumidityRatio d wbt pressure
  let finalError := |finalHR - target| / target
  if 0.05 < finalError then wbt + (100 - rh) / 3 else d

/-- The `switch (inputType)` of `calculatePsychrometricProperties`
(`src/script.js` lines 439-480), producing the five locals before
post-processing.  The `default` branch repeats the `dbt_wbt` computation. -/
def resolveRaw (inputType : String) (value1 value2 pressure : ℝ) : RawState :=
  if inputType = "dbt_wbt" then
    let dbt := value1
    let wbt := value2
    let hr := calculateHumidityRatio dbt wbt pressure
    { dbt := dbt, wbt := wbt, rh := calculateRelativeHumidity dbt hr pressure,
      dpt := calculateDewPoint hr pressure, hr := hr }
  else if inputType = "dbt_rh" then
    let dbt := value1
    let rh := value2
    let hr := calculateHumidityRatioFromDBTRH dbt rh pressure
    { dbt := dbt, wbt := calculateWetBulbFromDBTRH dbt rh pressure, rh := rh,
      dpt := calculateDewPoint hr pressure, hr := hr }
  else if inputType = "dbt_dpt" then
    let dbt := value1
    let dpt := value2
    { dbt := dbt, wbt := calculateWetBulbFromDBTDewPoint dbt dpt pressure,
      rh := calculateRelativeHumidityFromDewPoint dbt dpt, dpt := dpt,
      hr := calculateHumidityRatioFromDewPoint dpt pressure }
  else if inputType = "wbt_rh" then
    let wbt := value1
    let rh := value2
    let dbt := solveDBTFromWBTRH wbt rh pressure
    let hr := calculateHumidityRatio dbt wbt pressure
    { dbt := dbt, wbt := wbt, rh := rh,
      dpt := calculateDewPoint hr pressure, hr := hr }
  else
    let dbt := value1
    let wbt := value2
    let hr := calculateHumidityRatio dbt wbt pressure
    { dbt := dbt, wbt := wbt, rh := calculateRelativeHumidity dbt hr pressure,
      dpt := calculateDewPoint hr pressure, hr := hr }

/-- `calculatePsychrometricProperties(inputType, value1, value2, altitude)`
from `src/script.js` lines 433-500: pressure from altitude, dispatch, the
humidity-ratio floor `if (hr < 0) hr = 0`, the three derived properties, and
per-field formatting. -/
def calculatePsychrometricProperties
    (inputType : String) (value1 value2 altitude : ℝ) : AirState :=
  let pressure := barometricPressure altitude
  let s := resolveRaw inputType value1 value2 pressure
  let hr := if s.hr < 0 then 0 else s.hr
  { dbt := roundTo 1 s.dbt
    wbt := roundTo 1 s.wbt
    rh := roundTo 1 s.rh
    dpt := roundTo 1 s.dpt
    humidityRatio := roundTo 4 hr
    enthalpy := roundTo 1 (calculateEnthalpy s.dbt hr)
    specificVolume := roundTo 3 (calculateSpecificVolume s.dbt hr pressure)
    vaporPressure := roundTo 2 ((hr * pressure) / (0.621945 + hr)) }

end ScriptJs

namespace Part001

/-- Gas constant for dry air, J/(kg·K) (`R_AIR` in `src/unnamed/part_001`). -/
def R_AIR : ℝ := 287.055

/-- Antoine coefficient A (`ANTOINE_A`). -/
def ANTOINE_A : ℝ := 8.07131

/-- Antoine coefficient B (`ANTOINE_B`). -/
def ANTOINE_B : ℝ := 1730.63

/-- Antoine coefficient C (`ANTOINE_C`). -/
def ANTOINE_C : ℝ := 233.426

/-- `saturatedVaporPressure(temp)` from `src/unnamed/part_001`
lines 25-30. -/
def saturatedVaporPressure (temp : ℝ) : ℝ :=
  let logP := ANTOINE_A - ANTOINE_B / (ANTOINE_C + temp)
  let p_mmHg := (10 : ℝ) ^ logP
  p_mmHg * 0.133322

/-- `barometricPressure(altitude)` from `src/unnamed/part_001`
lines 37-40. -/
def barometricPressure (altitude : ℝ) : ℝ :=
  101.325 * (1 - (0.0065 * altitude) / 288.15) ^ (5.255 : ℝ)

/-- `calculateHumidityRatio(dbt, wbt, pressure)` from `src/unnamed/part_001`
lines 49-61. -/
def calculateHumidityRatio (dbt wbt pressure : ℝ) : ℝ :=
  let p_ws_wbt := saturatedVaporPressure wbt
  let w_ws_wbt := (0.621945 * p_ws_wbt) / (pressure - p_ws_wbt)
  let numerator := (1093 - 0.556 * wbt) * w_ws_wbt - 0.240 * (dbt - wbt)
  let denominator := 1093 + 0.444 * dbt - wbt
  numerator / denominator

/-- `calculateRelativeHumidity(dbt, humidityRatio, pressure)` from
`src/unnamed/part_001` lines 70-74. -/
def calculateRelativeHumidity (dbt humidityRatio pressure : ℝ) : ℝ :=
  let p_ws := saturatedVaporPressure dbt
  let p_w := (humidityRatio * pressure) / (0.621945 + humidityRatio)
  min 100 (max 0 ((p_w / p_ws) * 100))

/-- `calculateDewPoint(humidityRatio, pressure)` from `src/unnamed/part_001`
lines 82-90. -/
def calculateDewPoint (humidityRatio pressure : ℝ) : ℝ :=
  let p_w := (humidityRatio * pressure) / (0.621945 + humidityRatio)
  let logP := Real.logb 10 (p_w / 0.133322)
  ANTOINE_B / (ANTOINE_A - logP) - ANTOINE_C

/-- `calculateEnthalpy(dbt, humidityRatio)` from `src/unnamed/part_001`
lines 98-103 (written with the pre-reduced literals `1.006` and `2501`). -/
def calculateEnthalpy (dbt humidityRatio : ℝ) : ℝ :=
  1.006 * dbt + humidityRatio * (2501 + 1.86 * dbt)

/-- `calculateSpecificVolume(dbt, humidityRatio, pressure)` from
`src/unnamed/part_001` lines 112-119. -/
def calculateSpecificVolume (dbt humidityRatio pressure : ℝ) : ℝ :=
  let tempK := dbt + 273.15
  let p_w := (humidityRatio * pressure) / (0.621945 + humidityRatio)
  let p_dry := pressure - p_w
  (R_AIR * tempK) / (p_dry * 1000)

/-- `calculateHumidityRatioFromDBTRH(dbt, rh, pressure)` from
`src/unnamed/part_001` lines 167-171. -/
def calculateHumidityRatioFromDBTRH (dbt rh pressure : ℝ) : ℝ :=
  let p_ws := saturatedVaporPressure dbt
  let p_w := (rh / 100) * p_ws
  (0.621945 * p_w) / (pressure - p_w)

/-- Clamp to [−50, dbt] in `calculateWetBulbFromDBTRH`
(`src/unnamed/part_001` lines 150-154). -/
def wbtRhClamp (dbt w : ℝ) : ℝ :=
  if dbt < w then dbt else if w < -50 then -50 else w

/-- Loop body of `calculateWetBulbFromDBTRH` (`src/unnamed/part_001`
lines 138-155). -/
def wbtRhBody (dbt pressure target w : ℝ) : ℝ :=
  let difference := target - calculateHumidityRatio dbt w pressure
  if |difference| < 0.01 then w else wbtRhClamp dbt (w + difference * 10)

/-- `calculateWetBulbFromDBTRH(dbt, rh, pressure)` from
`src/unnamed/part_001` lines 128-158. -/
def calculateWetBulbFromDBTRH (dbt rh pressure : ℝ) : ℝ :=
  let hr_from_rh := calculateHumidityRatioFromDBTRH dbt rh pressure
  (wbtRhBody dbt pressure hr_from_rh)^[50] dbt

/-- `calculateHumidityRatioFromDewPoint(dpt, pressure)` from
`src/unnamed/part_001` lines 218-221. -/
def calculateHumidityRatioFromDewPoint (dpt pressure : ℝ) : ℝ :=
  let p_w := saturatedVaporPressure dpt
  (0.621945 * p_w) / (pressure - p_w)

/-- `calculateRelativeHumidityFromDewPoint(dbt, dpt)` from
`src/unnamed/part_001` lines 229-233. -/
def calculateRelativeHumidityFromDewPoint (dbt dpt : ℝ) : ℝ :=
  let p_ws := saturatedVaporPressure dbt
  let p_w := saturatedVaporPressure dpt
  min 100 (max 0 ((p_w / p_ws) * 100))

/-- Clamp to [dpt, dbt] in `calculateWetBulbFromDBTDewPoint`
(`src/unnamed/part_001` lines 202-206). -/
def wbtDptClamp (dbt dpt w : ℝ) : ℝ :=
  if dbt < w then dbt else if w < dpt then dpt else w

/-- Loop body of `calculateWetBulbFromDBTDewPoint` (`src/unnamed/part_001`
lines 190-207), with the source's `wbt -= difference * 5` update. -/
def wbtDptBody (dbt dpt pressure target w : ℝ) : ℝ :=
  let difference := target - calculateHumidityRatio dbt w pressure
  if |difference| < 0.01 then w else wbtDptClamp dbt dpt (w - difference * 5)

/-- `calculateWetBulbFromDBTDewPoint(dbt, dpt, pressure)` from
`src/unnamed/part_001` lines 180-210. -/
def calculateWetBulbFromDBTDewPoint (dbt dpt pressure : ℝ) : ℝ :=
  let hr_from_dpt := calculateHumidityRatioFromDewPoint dpt pressure
  (wbtDptBody dbt dpt pressure hr_from_dpt)^[50] ((dbt + dpt) / 2)

/-- The `switch (inputType)` of `calculatePsychrometricProperties`
(`src/unnamed/part_001` lines 259-306).  In the `wbt_rh` branch the first
assignments `dbt = value1 + 5` and the first `hr` are dead stores (both are
overwritten before use); only the live final values are embedded. -/
def resolveRaw (inputType : String) (value1 value2 pressure : ℝ) : RawState :=
  if inputType = "dbt_wbt" then
    let dbt := value1
    let wbt := value2
    let hr := calculateHumidityRatio dbt wbt pressure
    { dbt := dbt, wbt := wbt, rh := calculateRelativeHumidity dbt hr pressure,
      dpt := calculateDewPoint hr pressure, hr := hr }
  else if inputType = "dbt_rh" then
    let dbt := value1
    let rh := value2
    let hr := calculateHumidityRatioFromDBTRH dbt rh pressure
    { dbt := dbt, wbt := calculateWetBulbFromDBTRH dbt rh pressure, rh := rh,
      dpt := calculateDewPoint hr pressure, hr := hr }
  else if inputType = "dbt_dpt" then
    let dbt := value1
    let dpt := value2
    { dbt := dbt, wbt := calculateWetBulbFromDBTDewPoint dbt dpt pressure,
      rh := calculateRelativeHumidityFromDewPoint dbt dpt, dpt := dpt,
      hr := calculateHumidityRatioFromDewPoint dpt pressure }
  else if inputType = "wbt_rh" then
    let wbt := value1
    let rh := value2
    let dbt := value1 + (100 - rh) / 10
    let hr := calculateHumidityRatio dbt wbt pressure
    { dbt := dbt, wbt := wbt, rh := rh,
      dpt := calculateDewPoint hr pressure, hr := hr }
  else
    let dbt := value1
    let wbt := value2
    let hr := calculateHumidityRatio dbt wbt pressure
    { dbt := dbt, wbt := wbt, rh := calculateRelativeHumidity dbt hr pressure,
      dpt := calculateDewPoint hr pressure, hr := hr }

/-- `calculatePsychrometricProperties(inputType, value1, value2, altitude)`
from `src/unnamed/part_001` lines 253-326. -/
def calculatePsychrometricProperties
    (inputType : String) (value1 value2 altitude : ℝ) : AirState :=
  let pressure := barometricPressure altitude
  let s := resolveRaw inputType value1 value2 pressure
  let hr := if s.hr < 0 then 0 else s.hr
  { dbt := roundTo 1 s.dbt
    wbt := roundTo 1 s.wbt
    rh := roundTo 1 s.rh
    dpt := roundTo 1 s.dpt
    humidityRatio := roundTo 4 hr
    enthalpy := roundTo 1 (calculateEnthalpy s.dbt hr)
    specificVolume := roundTo 3 (calculateSpecificVolume s.dbt hr pressure)
    vaporPressure := roundTo 2 ((hr * pressure) / (0.621945 + hr)) }

end Part001

namespace CSVProcessor

/-- Loop of `CSVProcessor.processData` (`src/unnamed/part_000`
lines 530-570), processing the rows from index `i` onward, with `n` the
total row count.  The per-row computation `f` stands for the `try`-block
body (value extraction plus `calculatePsychrometricProperties`); a thrown
exception is its `Except.error` case.  Returns the `results` list (row
number `i+2` paired with the row's result), the `errors` list (row number
paired with the error), and the list of progress values passed to the
progress callback, each in emission order.  The callback is invoked inside
the `try` block (with `(i+1)/n*100`), hence only for successful rows. -/
def processDataAux {α β ε : Type} (f : α → Except ε β) (n : ℕ) :
    ℕ → List α → List (ℕ × β) × List (ℕ × ε) × List ℝ
  | _, [] => ([], [], [])
  | i, row :: rest =>
    let tail := processDataAux f n (i + 1) rest
    match f row with
    | Except.ok b =>
        ((i + 2, b) :: tail.1, tail.2.1, ((i + 1 : ℕ) : ℝ) / (n : ℝ) * 100 :: tail.2.2)
    | Except.error e =>
        (tail.1, (i + 2, e) :: tail.2.1, tail.2.2)

/-- `CSVProcessor.processData(data, progressCallback)` from
`src/unnamed/part_000` lines 525-574: iterate the rows in order from index
0, isolating each row's failure.  (The `await` that periodically yields to
the UI does not affect the computed lists and is not modelled.) -/
def processData {α β ε : Type} (f : α → Except ε β) (data : List α) :
    List (ℕ × β) × List (ℕ × ε) × List ℝ :=
  processDataAux f data.length 0 data

end CSVProcessor

/-! Helper lemmas about the embedding. -/

/-- Rounding is monotone. -/
theorem round_le_round {x y : ℝ} (h : x ≤ y) : round x ≤ round y := by
  rw [round_eq, round_eq]
  exact Int.floor_le_floor (by linarith)

/-- Rounding to `d` decimals preserves non-negativity. -/
theorem roundTo_nonneg (d : ℕ) {x : ℝ} (hx : 0 ≤ x) : 0 ≤ roundTo d x := by
  unfold roundTo
  have h0 : round ((0 : ℝ) * 10 ^ d) ≤ round (x * 10 ^ d) :=
    round_le_round (by rw [zero_mul]; exact mul_nonneg hx (by positivity))
  simp only [zero_mul, round_zero] at h0
  have h1 : (0 : ℝ) ≤ ((round (x * 10 ^ d) : ℤ) : ℝ) := by exact_mod_cast h0
  exact div_nonneg h1 (by positivity)

/-- Rounding to `d` decimals preserves the upper bound 100. -/
theorem roundTo_le_100 (d : ℕ) {x : ℝ} (hx : x ≤ 100) : roundTo d x ≤ 100 := by
  unfold roundTo
  have h1 : round (x * 10 ^ d) ≤ round ((100 : ℝ) * 10 ^ d) :=
    round_le_round (by nlinarith [pow_pos (by norm_num : (0:ℝ) < 10) d])
  have h2 : ((100 : ℝ) * 10 ^ d) = ((100 * 10 ^ d : ℤ) : ℝ) := by push_cast; ring
  rw [h2, round_intCast] at h1
  rw [div_le_iff (by positivity : (0:ℝ) < 10 ^ d)]
  calc ((round (x * 10 ^ d) : ℤ) : ℝ) ≤ ((100 * 10 ^ d : ℤ) : ℝ) := by exact_mod_cast h1
    _ = 100 * 10 ^ d := by push_cast; ring

/-- The min-max clamp used for relative humidity lands in [0, 100]. -/
theorem clamp01_bounds (x : ℝ) : 0 ≤ min 100 (max 0 x) ∧ min 100 (max 0 x) ≤ 100 :=
  ⟨le_min (by norm_num) (le_max_left 0 x), min_le_left _ _⟩

/-- At the temperature `1730.63 / 6.07131 − 233.426` (≈ 51.62 °C) the Antoine
exponent equals 2, so the saturated vapor pressure is exactly
`100 · 0.133322 = 13.3322` kPa. -/
theorem sVP_T2 :
    ScriptJs.saturatedVaporPressure (1730.63 / 6.07131 - 233.426) = 13.3322 := by
  show (10 : ℝ) ^ (ScriptJs.ANTOINE_A -
      ScriptJs.ANTOINE_B / (ScriptJs.ANTOINE_C + (1730.63 / 6.07131 - 233.426)))
    * ScriptJs.MMHG_TO_KPA = 13.3322
  unfold ScriptJs.ANTOINE_A ScriptJs.ANTOINE_B ScriptJs.ANTOINE_C ScriptJs.MMHG_TO_KPA
  have h1 : (8.07131 : ℝ) - 1730.63 / (233.426 + (1730.63 / 6.07131 - 233.426)) = 2 := by
    norm_num
  rw [h1]
  have h2 : (10 : ℝ) ^ (2 : ℝ) = 100 := by
    rw [Real.rpow_two]; norm_num
  rw [h2]; norm_num

/-- At the temperature `1730.63 / 7.07131 − 233.426` (≈ 11.31 °C) the Antoine
exponent equals 1, so the saturated vapor pressure is exactly
`10 · 0.133322 = 1.33322` kPa. -/
theorem sVP_T1 :
    ScriptJs.saturatedVaporPressure (1730.63 / 7.07131 - 233.426) = 1.33322 := by
  show (10 : ℝ) ^ (ScriptJs.ANTOINE_A -
      ScriptJs.ANTOINE_B / (ScriptJs.ANTOINE_C + (1730.63 / 7.07131 - 233.426)))
    * ScriptJs.MMHG_TO_KPA = 1.33322
  unfold ScriptJs.ANTOINE_A ScriptJs.ANTOINE_B ScriptJs.ANTOINE_C ScriptJs.MMHG_TO_KPA
  have h1 : (8.07131 : ℝ) - 1730.63 / (233.426 + (1730.63 / 7.07131 - 233.426)) = 1 := by
    norm_num
  rw [h1, Real.rpow_one]; norm_num

/-- Saturated vapor pressure is positive for every input. -/
theorem sVP_pos (t : ℝ) : 0 < ScriptJs.saturatedVaporPressure t := by
  show 0 < (10 : ℝ) ^ (ScriptJs.ANTOINE_A - ScriptJs.ANTOINE_B / (ScriptJs.ANTOINE_C + t))
    * ScriptJs.MMHG_TO_KPA
  have h := Real.rpow_pos_of_pos (by norm_num : (0:ℝ) < 10)
    (ScriptJs.ANTOINE_A - ScriptJs.ANTOINE_B / (ScriptJs.ANTOINE_C + t))
  have : (0:ℝ) < ScriptJs.MMHG_TO_KPA := by unfold ScriptJs.MMHG_TO_KPA; norm_num
  positivity

/-! Claim theorems. -/

/-- C1 (counterexample): the property-resolution entry points do not fail on
an unrecognized input kind — at inputKind "xyz" both return the normal
AirState computed by the dbt_wbt branch, contradicting the claimed
InvalidInputKind failure. -/
theorem C1_counterexample :
    ScriptJs.calculatePsychrometricProperties "xyz" 25 20 0
      = ScriptJs.calculatePsychrometricProperties "dbt_wbt" 25 20 0 ∧
    Part001.calculatePsychrometricProperties "xyz" 25 20 0
      = Part001.calculatePsychrometricProperties "dbt_wbt" 25 20 0 := by
  constructor <;> rfl

/-- C1 (amended): for every inputKind outside the four recognized tags, both
entry points fall through to the default switch branch, which computes
exactly the dbt_wbt result — no error is raised. -/
theorem C1_default_is_dbt_wbt (k : String) (v1 v2 alt : ℝ)
    (h1 : k ≠ "dbt_wbt") (h2 : k ≠ "dbt_rh") (h3 : k ≠ "dbt_dpt") (h4 : k ≠ "wbt_rh") :
    ScriptJs.calculatePsychrometricProperties k v1 v2 alt
      = ScriptJs.calculatePsychrometricProperties "dbt_wbt" v1 v2 alt ∧
    Part001.calculatePsychrometricProperties k v1 v2 alt
      = Part001.calculatePsychrometricProperties "dbt_wbt" v1 v2 alt := by
  have hs : ∀ p : ℝ, ScriptJs.resolveRaw k v1 v2 p = ScriptJs.resolveRaw "dbt_wbt" v1 v2 p := by
    intro p
    unfold ScriptJs.resolveRaw
    rw [if_neg h1, if_neg h2, if_neg h3, if_neg h4, if_pos rfl]
  have hp : ∀ p : ℝ, Part001.resolveRaw k v1 v2 p = Part001.resolveRaw "dbt_wbt" v1 v2 p := by
    intro p
    unfold Part001.resolveRaw
    rw [if_neg h1, if_neg h2, if_neg h3, if_neg h4, if_pos rfl]
  constructor
  · simp only [ScriptJs.calculatePsychrometricProperties]
    rw [hs]
  · simp only [Part001.calculatePsychrometricProperties]
    rw [hp]

/-- C1 (witness): the amended claim instantiated at inputKind "invalid". -/
theorem C1_witness :
    ("invalid" ≠ "dbt_wbt" ∧ "invalid" ≠ "dbt_rh" ∧
     "invalid" ≠ "dbt_dpt" ∧ "invalid" ≠ "wbt_rh") ∧
    (ScriptJs.calculatePsychrometricProperties "invalid" 25 20 0
       = ScriptJs.calculatePsychrometricProperties "dbt_wbt" 25 20 0 ∧
     Part001.calculatePsychrometricProperties "invalid" 25 20 0
       = Part001.calculatePsychrometricProperties "dbt_wbt" 25 20 0) :=
  ⟨⟨by decide, by decide, by decide, by decide⟩,
   C1_default_is_dbt_wbt "invalid" 25 20 0
     (by decide) (by decide) (by decide) (by decide)⟩

/-- Splitting the batch loop across a concatenation of row lists: the
second half runs with its indices shifted by the length of the first. -/
theorem processDataAux_append {α β ε : Type} (f : α → Except ε β) (n : ℕ)
    (l₁ l₂ : List α) (i : ℕ) :
    CSVProcessor.processDataAux f n i (l₁ ++ l₂) =
      ((CSVProcessor.processDataAux f n i l₁).1
         ++ (CSVProcessor.processDataAux f n (i + l₁.length) l₂).1,
       (CSVProcessor.processDataAux f n i l₁).2.1
         ++ (CSVProcessor.processDataAux f n (i + l₁.length) l₂).2.1,
       (CSVProcessor.processDataAux f n i l₁).2.2
         ++ (CSVProcessor.processDataAux f n (i + l₁.length) l₂).2.2) := by
  induction l₁ generalizing i with
  | nil => simp [CSVProcessor.processDataAux]
  | cons row rest ih =>
      simp only [List.cons_append, CSVProcessor.processDataAux, List.length_cons,
        List.append_eq]
      rw [ih (i + 1)]
      have harith : i + 1 + rest.length = i + (rest.length + 1) := by omega
      rw [harith]
      cases f row <;> simp

/-- Every row of the batch contributes to exactly one of the two output
lists, in input order: the results list collects the successful rows and the
errors list the failing rows, both tagged with the row number `index + 2`. -/
theorem processDataAux_spec {α β ε : Type} (f : α → Except ε β) (n : ℕ)
    (data : List α) (i : ℕ) :
    CSVProcessor.processDataAux f n i data =
      ((data.enumFrom i).filterMap fun p =>
          match f p.2 with
          | Except.ok b => some (p.1 + 2, b)
          | Except.error _ => none,
       (data.enumFrom i).filterMap fun p =>
          match f p.2 with
          | Except.ok _ => none
          | Except.error e => some (p.1 + 2, e),
       (data.enumFrom i).filterMap fun p =>
          match f p.2 with
          | Except.ok _ => some (((p.1 + 1 : ℕ) : ℝ) / (n : ℝ) * 100)
          | Except.error _ => none) := by
  induction data generalizing i with
  | nil => simp [CSVProcessor.processDataAux]
  | cons row rest ih =>
      simp only [CSVProcessor.processDataAux, List.enumFrom, List.filterMap_cons]
      rw [ih (i + 1)]
      cases h : f row <;> simp [h]

/-- C3: the batch runner resolves the rows independently in input order;
a failing row is recorded as a row-indexed error while every other row is
still processed — the outputs are exactly the ordered successful results
and the ordered (row, error) pairs, and together they account for every
input row. -/
theorem C3_processData_isolation {α β ε : Type} (f : α → Except ε β) (data : List α) :
    (CSVProcessor.processData f data).1
        = (data.enum.filterMap fun p =>
            match f p.2 with
            | Except.ok b => some (p.1 + 2, b)
            | Except.error _ => none) ∧
    (CSVProcessor.processData f data).2.1
        = (data.enum.filterMap fun p =>
            match f p.2 with
            | Except.ok _ => none
            | Except.error e => some (p.1 + 2, e)) ∧
    (CSVProcessor.processData f data).1.length
        + (CSVProcessor.processData f data).2.1.length = data.length := by
  refine ⟨?_, ?_, ?_⟩
  · rw [CSVProcessor.processData, processDataAux_spec]; rfl
  · rw [CSVProcessor.processData, processDataAux_spec]; rfl
  · rw [CSVProcessor.processData]
    have key : ∀ (m : ℕ) (l : List α) (i : ℕ),
        (CSVProcessor.processDataAux f m i l).1.length
          + (CSVProcessor.processDataAux f m i l).2.1.length = l.length := by
      intro m l
      induction l with
      | nil => intro i; rfl
      | cons row rest ih =>
          intro i
          simp only [CSVProcessor.processDataAux, List.length_cons]
          cases f row <;> simp only [List.length_cons] <;> rw [← ih (i + 1)] <;> omega
    exact key data.length data 0

/-- Progress values with a larger row index are at least as large. -/
theorem progress_value_mono (n a b : ℕ) (hab : a ≤ b) :
    ((a : ℕ) : ℝ) / (n : ℝ) * 100 ≤ ((b : ℕ) : ℝ) / (n : ℝ) * 100 := by
  rcases Nat.eq_zero_or_pos n with hn | hn
  · simp [hn]
  · have hpos : (0 : ℝ) < (n : ℝ) := by exact_mod_cast hn
    have hcast : ((a : ℕ) : ℝ) ≤ ((b : ℕ) : ℝ) := by exact_mod_cast hab
    have hdiv : ((a : ℕ) : ℝ) / (n : ℝ) ≤ ((b : ℕ) : ℝ) / (n : ℝ) :=
      (div_le_div_right hpos).mpr hcast
    exact mul_le_mul_of_nonneg_right hdiv (by norm_num)

/-- Every progress value emitted from row index `i` onward is at least the
value `(i+1)/n·100` emitted for row `i`. -/
theorem processDataAux_progress_lb {α β ε : Type} (f : α → Except ε β) (n : ℕ)
    (data : List α) (i : ℕ) :
    ∀ x ∈ (CSVProcessor.processDataAux f n i data).2.2,
      ((i + 1 : ℕ) : ℝ) / (n : ℝ) * 100 ≤ x := by
  induction data generalizing i with
  | nil =>
      intro x hx
      simp [CSVProcessor.processDataAux] at hx
  | cons row rest ih =>
      intro x hx
      have hmono := progress_value_mono n (i + 1) (i + 1 + 1) (by omega)
      cases h : f row with
      | ok b =>
          simp only [CSVProcessor.processDataAux, h, List.mem_cons] at hx
          rcases hx with hx | hx
          · exact hx ▸ le_refl _
          · exact le_trans hmono (ih (i + 1) x hx)
      | error e =>
          simp only [CSVProcessor.processDataAux, h] at hx
          exact le_trans hmono (ih (i + 1) x hx)

/-- The emitted progress sequence is sorted (monotonically non-decreasing). -/
theorem processDataAux_progress_sorted {α β ε : Type} (f : α → Except ε β) (n : ℕ)
    (data : List α) (i : ℕ) :
    List.Sorted (· ≤ ·) (CSVProcessor.processDataAux f n i data).2.2 := by
  induction data generalizing i with
  | nil => simp [CSVProcessor.processDataAux]
  | cons row rest ih =>
      cases h : f row with
      | ok b =>
          simp only [CSVProcessor.processDataAux, h, List.sorted_cons]
          refine ⟨fun x hx => ?_, ih (i + 1)⟩
          exact le_trans (progress_value_mono n (i + 1) (i + 1 + 1) (by omega))
            (processDataAux_progress_lb f n rest (i + 1) x hx)
      | error e =>
          simpa only [CSVProcessor.processDataAux, h] using ih (i + 1)

/-- Exactly one progress value is emitted per successful row. -/
theorem processDataAux_progress_count {α β ε : Type} (f : α → Except ε β) (n : ℕ)
    (data : List α) (i : ℕ) :
    (CSVProcessor.processDataAux f n i data).2.2.length
      = (CSVProcessor.processDataAux f n i data).1.length := by
  induction data generalizing i with
  | nil => rfl
  | cons row rest ih =>
      cases h : f row <;>
        simp only [CSVProcessor.processDataAux, h, List.length_cons] <;>
        rw [ih (i + 1)]

/-- C4 (counterexample): a non-empty batch whose single row fails emits no
progress value at all — in particular no value after the failing row, and
the emitted sequence does not end at 100%. -/
theorem C4_counterexample :
    (CSVProcessor.processData
        (fun _ : Unit => (Except.error "row failure" : Except String Unit))
        [()]).2.2 = [] := rfl

/-- C4 (amended): a progress value is emitted after each successfully
processed row (one value per success, none for a failing row), the emitted
sequence is monotonically non-decreasing, and it ends at 100% whenever the
final row of the batch succeeds. -/
theorem C4_progress_policy {α β ε : Type} (f : α → Except ε β)
    (data front : List α) (r : α) (b : β) (hb : f r = Except.ok b) :
    List.Sorted (· ≤ ·) (CSVProcessor.processData f data).2.2 ∧
    (CSVProcessor.processData f data).2.2.length
      = (CSVProcessor.processData f data).1.length ∧
    (CSVProcessor.processData f (front ++ [r])).2.2.getLast? = some 100 := by
  refine ⟨processDataAux_progress_sorted f data.length data 0,
    processDataAux_progress_count f data.length data 0, ?_⟩
  unfold CSVProcessor.processData
  rw [processDataAux_append]
  have hsingle : (CSVProcessor.processDataAux f (front ++ [r]).length
      (0 + front.length) [r]).2.2
        = [((0 + front.length + 1 : ℕ) : ℝ) / ((front ++ [r]).length : ℝ) * 100] := by
    simp [CSVProcessor.processDataAux, hb]
  rw [hsingle]
  have hval : ((0 + front.length + 1 : ℕ) : ℝ) / ((front ++ [r]).length : ℝ) * 100 = 100 := by
    have hne : ((front ++ [r]).length : ℝ) ≠ 0 := by
      simp only [List.length_append, List.length_cons, List.length_nil]
      exact Nat.cast_ne_zero.mpr (Nat.succ_ne_zero (front.length + 0))
    rw [List.length_append, List.length_cons, List.length_nil]
    push_cast
    rw [List.length_append, List.length_cons, List.length_nil] at hne
    push_cast at hne
    field_simp
  rw [hval]
  exact List.getLast?_concat _

/-- C4 (witness): the amended claim at a one-row batch whose row succeeds:
the progress sequence is sorted, one value per success, and ends at 100. -/
theorem C4_witness :
    ((fun _ : Unit => (Except.ok 0 : Except String ℕ)) () = Except.ok 0) ∧
    (List.Sorted (· ≤ ·)
        (CSVProcessor.processData
          (fun _ : Unit => (Except.ok 0 : Except String ℕ)) [()]).2.2 ∧
     (CSVProcessor.processData
          (fun _ : Unit => (Except.ok 0 : Except String ℕ)) [()]).2.2.length
        = (CSVProcessor.processData
          (fun _ : Unit => (Except.ok 0 : Except String ℕ)) [()]).1.length ∧
     (CSVProcessor.processData
          (fun _ : Unit => (Except.ok 0 : Except String ℕ)) ([] ++ [()])).2.2.getLast?
        = some 100) :=
  ⟨rfl, C4_progress_policy (fun _ : Unit => (Except.ok 0 : Except String ℕ))
    [()] [] () 0 rfl⟩

/-- Dispatch tags are pairwise distinct: dbt_rh vs dbt_wbt. -/
theorem ne_rh_wbt : ("dbt_rh" : String) ≠ "dbt_wbt" := by decide

/-- Dispatch tags are pairwise distinct: dbt_dpt vs dbt_wbt. -/
theorem ne_dpt_wbt : ("dbt_dpt" : String) ≠ "dbt_wbt" := by decide

/-- Dispatch tags are pairwise distinct: dbt_dpt vs dbt_rh. -/
theorem ne_dpt_rh : ("dbt_dpt" : String) ≠ "dbt_rh" := by decide

/-- Dispatch tags are pairwise distinct: wbt_rh vs dbt_wbt. -/
theorem ne_wrh_wbt : ("wbt_rh" : String) ≠ "dbt_wbt" := by decide

/-- Dispatch tags are pairwise distinct: wbt_rh vs dbt_rh. -/
theorem ne_wrh_rh : ("wbt_rh" : String) ≠ "dbt_rh" := by decide

/-- Dispatch tags are pairwise distinct: wbt_rh vs dbt_dpt. -/
theorem ne_wrh_dpt : ("wbt_rh" : String) ≠ "dbt_dpt" := by decide

/-- C5: for every input kind (all four valid tags and the default branch),
the returned AirState has a non-negative humidity ratio, and the floored
humidity ratio `max hr 0` is the value from which the humidity-ratio field,
enthalpy, specific volume and vapor pressure are all computed, in both
calculation-function sets. -/
theorem C5_hr_floor (k : String) (v1 v2 alt : ℝ) :
    (0 ≤ (ScriptJs.calculatePsychrometricProperties k v1 v2 alt).humidityRatio ∧
     (ScriptJs.calculatePsychrometricProperties k v1 v2 alt).humidityRatio
       = roundTo 4
           (max (ScriptJs.resolveRaw k v1 v2 (ScriptJs.barometricPressure alt)).hr 0) ∧
     (ScriptJs.calculatePsychrometricProperties k v1 v2 alt).enthalpy
       = roundTo 1
           (ScriptJs.calculateEnthalpy
             (ScriptJs.resolveRaw k v1 v2 (ScriptJs.barometricPressure alt)).dbt
             (max (ScriptJs.resolveRaw k v1 v2 (ScriptJs.barometricPressure alt)).hr 0)) ∧
     (ScriptJs.calculatePsychrometricProperties k v1 v2 alt).specificVolume
       = roundTo 3
           (ScriptJs.calculateSpecificVolume
             (ScriptJs.resolveRaw k v1 v2 (ScriptJs.barometricPressure alt)).dbt
             (max (ScriptJs.resolveRaw k v1 v2 (ScriptJs.barometricPressure alt)).hr 0)
             (ScriptJs.barometricPressure alt)) ∧
     (ScriptJs.calculatePsychrometricProperties k v1 v2 alt).vaporPressure
       = roundTo 2
           ((max (ScriptJs.resolveRaw k v1 v2 (ScriptJs.barometricPressure alt)).hr 0
              * ScriptJs.barometricPressure alt)
            / (0.621945
               + max (ScriptJs.resolveRaw k v1 v2 (ScriptJs.barometricPressure alt)).hr 0))) ∧
    (0 ≤ (Part001.calculatePsychrometricProperties k v1 v2 alt).humidityRatio ∧
     (Part001.calculatePsychrometricProperties k v1 v2 alt).humidityRatio
       = roundTo 4
           (max (Part001.resolveRaw k v1 v2 (Part001.barometricPressure alt)).hr 0) ∧
     (Part001.calculatePsychrometricProperties k v1 v2 alt).enthalpy
       = roundTo 1
           (Part001.calculateEnthalpy
             (Part001.resolveRaw k v1 v2 (Part001.barometricPressure alt)).dbt
             (max (Part001.resolveRaw k v1 v2 (Part001.barometricPressure alt)).hr 0)) ∧
     (Part001.calculatePsychrometricProperties k v1 v2 alt).specificVolume
       = roundTo 3
           (Part001.calculateSpecificVolume
             (Part001.resolveRaw k v1 v2 (Part001.barometricPressure alt)).dbt
             (max (Part001.resolveRaw k v1 v2 (Part001.barometricPressure alt)).hr 0)
             (Part001.barometricPressure alt)) ∧
     (Part001.calculatePsychrometricProperties k v1 v2 alt).vaporPressure
       = roundTo 2
           ((max (Part001.resolveRaw k v1 v2 (Part001.barometricPressure alt)).hr 0
              * Part001.barometricPressure alt)
            / (0.621945
               + max (Part001.resolveRaw k v1 v2 (Part001.barometricPressure alt)).hr 0))) := by
  have hmax : ∀ x : ℝ, (if x < 0 then (0 : ℝ) else x) = max x 0 := by
    intro x
    rcases lt_or_le x 0 with h | h
    · rw [if_pos h, max_eq_right h.le]
    · rw [if_neg (not_lt.mpr h), max_eq_left h]
  refine ⟨⟨?_, ?_, ?_, ?_, ?_⟩, ?_, ?_, ?_, ?_, ?_⟩ <;>
    simp only [ScriptJs.calculatePsychrometricProperties,
      Part001.calculatePsychrometricProperties, hmax]
  · exact roundTo_nonneg 4 (le_max_right _ _)
  · exact roundTo_nonneg 4 (le_max_right _ _)

/-- C7 (counterexample): the resolver applies no clamp to a user-supplied
RH: with input kind dbt_rh and RH input 150 the resolved AirState reports
RH = 150, outside [0, 100]. -/
theorem C7_counterexample :
    (ScriptJs.calculatePsychrometricProperties "dbt_rh" 25 150 0).rh = 150 ∧
    ¬ (ScriptJs.calculatePsychrometricProperties "dbt_rh" 25 150 0).rh ≤ 100 := by
  have hrh : (ScriptJs.calculatePsychrometricProperties "dbt_rh" 25 150 0).rh = 150 := by
    simp only [ScriptJs.calculatePsychrometricProperties, ScriptJs.resolveRaw]
    rw [if_neg ne_rh_wbt, if_pos trivial]
    unfold roundTo
    rw [show ((150 : ℝ) * 10 ^ (1 : ℕ)) = ((1500 : ℤ) : ℝ) by norm_num, round_intCast]
    norm_num
  exact ⟨hrh, by rw [hrh]; norm_num⟩

/-- C7 (amended): both relative-humidity converters always return a value in
[0, 100]; on the dbt_wbt and dbt_dpt paths the resolved RH also lies in
[0, 100]; on the dbt_rh and wbt_rh paths the resolved RH is the rounded
input value2, so it lies in [0, 100] exactly when the input does (never an
exception in any case — the embedding is total). -/
theorem C7_rh_clamp_policy (dbt w p dpt v1 v2 alt : ℝ)
    (h0 : 0 ≤ v2) (h100 : v2 ≤ 100) :
    (0 ≤ ScriptJs.calculateRelativeHumidity dbt w p ∧
     ScriptJs.calculateRelativeHumidity dbt w p ≤ 100) ∧
    (0 ≤ ScriptJs.calculateRelativeHumidityFromDewPoint dbt dpt ∧
     ScriptJs.calculateRelativeHumidityFromDewPoint dbt dpt ≤ 100) ∧
    (0 ≤ (ScriptJs.calculatePsychrometricProperties "dbt_wbt" v1 w alt).rh ∧
     (ScriptJs.calculatePsychrometricProperties "dbt_wbt" v1 w alt).rh ≤ 100) ∧
    (0 ≤ (ScriptJs.calculatePsychrometricProperties "dbt_dpt" v1 dpt alt).rh ∧
     (ScriptJs.calculatePsychrometricProperties "dbt_dpt" v1 dpt alt).rh ≤ 100) ∧
    ((ScriptJs.calculatePsychrometricProperties "dbt_rh" v1 v2 alt).rh = roundTo 1 v2 ∧
     0 ≤ (ScriptJs.calculatePsychrometricProperties "dbt_rh" v1 v2 alt).rh ∧
     (ScriptJs.calculatePsychrometricProperties "dbt_rh" v1 v2 alt).rh ≤ 100) ∧
    ((ScriptJs.calculatePsychrometricProperties "wbt_rh" v1 v2 alt).rh = roundTo 1 v2 ∧
     0 ≤ (ScriptJs.calculatePsychrometricProperties "wbt_rh" v1 v2 alt).rh ∧
     (ScriptJs.calculatePsychrometricProperties "wbt_rh" v1 v2 alt).rh ≤ 100) := by
  have h1 : (ScriptJs.calculatePsychrometricProperties "dbt_wbt" v1 w alt).rh
      = roundTo 1 (ScriptJs.calculateRelativeHumidity v1
          (ScriptJs.calculateHumidityRatio v1 w (ScriptJs.barometricPressure alt))
          (ScriptJs.barometricPressure alt)) := by
    simp only [ScriptJs.calculatePsychrometricProperties, ScriptJs.resolveRaw]
    rw [if_pos trivial]
  have h2 : (ScriptJs.calculatePsychrometricProperties "dbt_dpt" v1 dpt alt).rh
      = roundTo 1 (ScriptJs.calculateRelativeHumidityFromDewPoint v1 dpt) := by
    simp only [ScriptJs.calculatePsychrometricProperties, ScriptJs.resolveRaw]
    rw [if_neg ne_dpt_wbt, if_neg ne_dpt_rh, if_pos trivial]
  have h3 : (ScriptJs.calculatePsychrometricProperties "dbt_rh" v1 v2 alt).rh
      = roundTo 1 v2 := by
    simp only [ScriptJs.calculatePsychrometricProperties, ScriptJs.resolveRaw]
    rw [if_neg ne_rh_wbt, if_pos trivial]
  have h4 : (ScriptJs.calculatePsychrometricProperties "wbt_rh" v1 v2 alt).rh
      = roundTo 1 v2 := by
    simp only [ScriptJs.calculatePsychrometricProperties, ScriptJs.resolveRaw]
    rw [if_neg ne_wrh_wbt, if_neg ne_wrh_rh, if_neg ne_wrh_dpt, if_pos trivial]
  refine ⟨clamp01_bounds _, clamp01_bounds _, ?_, ?_, ⟨h3, ?_, ?_⟩, ⟨h4, ?_, ?_⟩⟩
  · rw [h1]
    exact ⟨roundTo_nonneg 1 (clamp01_bounds _).1, roundTo_le_100 1 (clamp01_bounds _).2⟩
  · rw [h2]
    exact ⟨roundTo_nonneg 1 (clamp01_bounds _).1, roundTo_le_100 1 (clamp01_bounds _).2⟩
  · rw [h3]; exact roundTo_nonneg 1 h0
  · rw [h3]; exact roundTo_le_100 1 h100
  · rw [h4]; exact roundTo_nonneg 1 h0
  · rw [h4]; exact roundTo_le_100 1 h100

/-- C7 (witness): the amended claim at dbt 25 °C, humidity ratio 0.01,
pressure 101.325 kPa, dew point 15 °C, RH input 50 %, altitude 0. -/
theorem C7_witness :
    ((0 : ℝ) ≤ 50 ∧ (50 : ℝ) ≤ 100) ∧
    ((0 ≤ ScriptJs.calculateRelativeHumidity 25 0.01 101.325 ∧
      ScriptJs.calculateRelativeHumidity 25 0.01 101.325 ≤ 100) ∧
     (0 ≤ ScriptJs.calculateRelativeHumidityFromDewPoint 25 15 ∧
      ScriptJs.calculateRelativeHumidityFromDewPoint 25 15 ≤ 100) ∧
     (0 ≤ (ScriptJs.calculatePsychrometricProperties "dbt_wbt" 25 0.01 0).rh ∧
      (ScriptJs.calculatePsychrometricProperties "dbt_wbt" 25 0.01 0).rh ≤ 100) ∧
     (0 ≤ (ScriptJs.calculatePsychrometricProperties "dbt_dpt" 25 15 0).rh ∧
      (ScriptJs.calculatePsychrometricProperties "dbt_dpt" 25 15 0).rh ≤ 100) ∧
     ((ScriptJs.calculatePsychrometricProperties "dbt_rh" 25 50 0).rh = roundTo 1 50 ∧
      0 ≤ (ScriptJs.calculatePsychrometricProperties "dbt_rh" 25 50 0).rh ∧
      (ScriptJs.calculatePsychrometricProperties "dbt_rh" 25 50 0).rh ≤ 100) ∧
     ((ScriptJs.calculatePsychrometricProperties "wbt_rh" 25 50 0).rh = roundTo 1 50 ∧
      0 ≤ (ScriptJs.calculatePsychrometricProperties "wbt_rh" 25 50 0).rh ∧
      (ScriptJs.calculatePsychrometricProperties "wbt_rh" 25 50 0).rh ≤ 100)) :=
  ⟨⟨by norm_num, by norm_num⟩,
   C7_rh_clamp_policy 25 0.01 101.325 15 25 50 0 (by norm_num) (by norm_num)⟩

/-- C8: on the physical domain (Antoine pole excluded, pressure above the
saturation pressure at the dew point), composing
calculateHumidityRatioFromDewPoint with calculateDewPoint is the identity in
exact arithmetic — calculateDewPoint exactly inverts the Antoine equation on
the vapor partial pressure, so the re-derived dew point matches the input
exactly (in particular within 0.1 °C). -/
theorem C8_dewpoint_roundtrip (dpt P : ℝ) (hdom : 0 < 233.426 + dpt)
    (hP : ScriptJs.saturatedVaporPressure dpt < P) :
    ScriptJs.calculateDewPoint (ScriptJs.calculateHumidityRatioFromDewPoint dpt P) P
      = dpt := by
  have hpw : 0 < ScriptJs.saturatedVaporPressure dpt := sVP_pos dpt
  have hP0 : 0 < P := lt_trans hpw hP
  have hd1 : 0 < P - ScriptJs.saturatedVaporPressure dpt := by linarith
  have hr_eq : ScriptJs.calculateHumidityRatioFromDewPoint dpt P
      = (0.621945 * ScriptJs.saturatedVaporPressure dpt)
          / (P - ScriptJs.saturatedVaporPressure dpt) := rfl
  have hca : 0 < (0.621945 : ℝ)
      + 0.621945 * ScriptJs.saturatedVaporPressure dpt
          / (P - ScriptJs.saturatedVaporPressure dpt) := by positivity
  have key : (0.621945 * ScriptJs.saturatedVaporPressure dpt
        / (P - ScriptJs.saturatedVaporPressure dpt) * P)
      / (0.621945 + 0.621945 * ScriptJs.saturatedVaporPressure dpt
          / (P - ScriptJs.saturatedVaporPressure dpt))
      = ScriptJs.saturatedVaporPressure dpt := by
    rw [div_eq_iff (ne_of_gt hca)]
    field_simp
    ring
  have pw_div : ScriptJs.saturatedVaporPressure dpt / 0.133322
      = (10 : ℝ) ^ (ScriptJs.ANTOINE_A
          - ScriptJs.ANTOINE_B / (ScriptJs.ANTOINE_C + dpt)) := by
    show (10 : ℝ) ^ (ScriptJs.ANTOINE_A - ScriptJs.ANTOINE_B / (ScriptJs.ANTOINE_C + dpt))
        * ScriptJs.MMHG_TO_KPA / 0.133322 = _
    unfold ScriptJs.MMHG_TO_KPA
    rw [mul_div_cancel_right₀ _ (by norm_num : (0.133322 : ℝ) ≠ 0)]
  have hlog : Real.logb 10
      ((10 : ℝ) ^ (ScriptJs.ANTOINE_A - ScriptJs.ANTOINE_B / (ScriptJs.ANTOINE_C + dpt)))
      = ScriptJs.ANTOINE_A - ScriptJs.ANTOINE_B / (ScriptJs.ANTOINE_C + dpt) :=
    Real.logb_rpow (by norm_num) (by norm_num)
  simp only [ScriptJs.calculateDewPoint]
  rw [hr_eq, key, pw_div, hlog]
  unfold ScriptJs.ANTOINE_A ScriptJs.ANTOINE_B ScriptJs.ANTOINE_C
  have hsub : (8.07131 : ℝ) - (8.07131 - 1730.63 / (233.426 + dpt))
      = 1730.63 / (233.426 + dpt) := by ring
  rw [hsub, div_div_eq_mul_div, mul_div_assoc, mul_comm,
    div_mul_cancel₀ _ (by norm_num : (1730.63 : ℝ) ≠ 0)]
  ring

/-- C8 (witness): the round-trip identity at the dew point
`1730.63/6.07131 − 233.426` (≈ 51.62 °C) and pressure 101.325 kPa. -/
theorem C8_witness :
    ((0 : ℝ) < 233.426 + (1730.63 / 6.07131 - 233.426) ∧
     ScriptJs.saturatedVaporPressure (1730.63 / 6.07131 - 233.426) < 101.325) ∧
    ScriptJs.calculateDewPoint
        (ScriptJs.calculateHumidityRatioFromDewPoint
          (1730.63 / 6.07131 - 233.426) 101.325) 101.325
      = 1730.63 / 6.07131 - 233.426 :=
  ⟨⟨by norm_num, by rw [sVP_T2]; norm_num⟩,
   C8_dewpoint_roundtrip (1730.63 / 6.07131 - 233.426) 101.325
     (by norm_num) (by rw [sVP_T2]; norm_num)⟩

/-- C9: for fixed dry-bulb temperature and pressure above the saturation
pressure at that temperature, the humidity ratio of the dbt_rh path is
strictly increasing in RH on [0, 100], and so is the enthalpy whenever the
coefficient 2501 + 1.86·dbt is positive. -/
theorem C9_monotonicity (dbt P rh1 rh2 : ℝ)
    (hP : ScriptJs.saturatedVaporPressure dbt < P)
    (h0 : 0 ≤ rh1) (h12 : rh1 < rh2) (h100 : rh2 ≤ 100) :
    ScriptJs.calculateHumidityRatioFromDBTRH dbt rh1 P
      < ScriptJs.calculateHumidityRatioFromDBTRH dbt rh2 P ∧
    (0 < 2501 + 1.86 * dbt →
      ScriptJs.calculateEnthalpy dbt (ScriptJs.calculateHumidityRatioFromDBTRH dbt rh1 P)
        < ScriptJs.calculateEnthalpy dbt
            (ScriptJs.calculateHumidityRatioFromDBTRH dbt rh2 P)) := by
  have hpws : 0 < ScriptJs.saturatedVaporPressure dbt := sVP_pos dbt
  have hP0 : 0 < P := lt_trans hpws hP
  have hx12 : rh1 / 100 * ScriptJs.saturatedVaporPressure dbt
      < rh2 / 100 * ScriptJs.saturatedVaporPressure dbt := by
    apply mul_lt_mul_of_pos_right _ hpws
    linarith
  have hx2P : rh2 / 100 * ScriptJs.saturatedVaporPressure dbt < P := by
    nlinarith
  have hden1 : 0 < P - rh1 / 100 * ScriptJs.saturatedVaporPressure dbt := by nlinarith
  have hden2 : 0 < P - rh2 / 100 * ScriptJs.saturatedVaporPressure dbt := by linarith
  have hMW : (0 : ℝ) < ScriptJs.MW_RATIO := by unfold ScriptJs.MW_RATIO; norm_num
  have hmain : ScriptJs.MW_RATIO * (rh1 / 100 * ScriptJs.saturatedVaporPressure dbt)
        / (P - rh1 / 100 * ScriptJs.saturatedVaporPressure dbt)
      < ScriptJs.MW_RATIO * (rh2 / 100 * ScriptJs.saturatedVaporPressure dbt)
        / (P - rh2 / 100 * ScriptJs.saturatedVaporPressure dbt) := by
    rw [div_lt_div_iff hden1 hden2]
    nlinarith [mul_pos hP0 (sub_pos.mpr hx12), mul_pos hMW (mul_pos hP0 (sub_pos.mpr hx12))]
  refine ⟨hmain, fun hc => ?_⟩
  have hcoef : 0 < ScriptJs.HVAP * ScriptJs.JOULE_TO_KILOJOULE + ScriptJs.CP_VAPOR * dbt := by
    unfold ScriptJs.HVAP ScriptJs.JOULE_TO_KILOJOULE ScriptJs.CP_VAPOR
    norm_num
    linarith
  show ScriptJs.CP_AIR * ScriptJs.JOULE_TO_KILOJOULE * dbt
        + ScriptJs.calculateHumidityRatioFromDBTRH dbt rh1 P
          * (ScriptJs.HVAP * ScriptJs.JOULE_TO_KILOJOULE + ScriptJs.CP_VAPOR * dbt)
      < ScriptJs.CP_AIR * ScriptJs.JOULE_TO_KILOJOULE * dbt
        + ScriptJs.calculateHumidityRatioFromDBTRH dbt rh2 P
          * (ScriptJs.HVAP * ScriptJs.JOULE_TO_KILOJOULE + ScriptJs.CP_VAPOR * dbt)
  exact add_lt_add_left (mul_lt_mul_of_pos_right hmain hcoef) _

/-- C9 (witness): strict monotonicity at dry-bulb `1730.63/6.07131 − 233.426`
(≈ 51.62 °C), pressure 101.325 kPa, RH 30 % versus 60 %. -/
theorem C9_witness :
    (ScriptJs.saturatedVaporPressure (1730.63 / 6.07131 - 233.426) < 101.325 ∧
     (0 : ℝ) ≤ 30 ∧ (30 : ℝ) < 60 ∧ (60 : ℝ) ≤ 100 ∧
     (0 : ℝ) < 2501 + 1.86 * (1730.63 / 6.07131 - 233.426)) ∧
    (ScriptJs.calculateHumidityRatioFromDBTRH (1730.63 / 6.07131 - 233.426) 30 101.325
       < ScriptJs.calculateHumidityRatioFromDBTRH (1730.63 / 6.07131 - 233.426) 60 101.325 ∧
     ScriptJs.calculateEnthalpy (1730.63 / 6.07131 - 233.426)
         (ScriptJs.calculateHumidityRatioFromDBTRH (1730.63 / 6.07131 - 233.426) 30 101.325)
       < ScriptJs.calculateEnthalpy (1730.63 / 6.07131 - 233.426)
         (ScriptJs.calculateHumidityRatioFromDBTRH (1730.63 / 6.07131 - 233.426) 60 101.325)) := by
  have hP : ScriptJs.saturatedVaporPressure (1730.63 / 6.07131 - 233.426) < 101.325 := by
    rw [sVP_T2]; norm_num
  have hc : (0 : ℝ) < 2501 + 1.86 * (1730.63 / 6.07131 - 233.426) := by norm_num
  have main := C9_monotonicity (1730.63 / 6.07131 - 233.426) 101.325 30 60 hP
    (by norm_num) (by norm_num) (by norm_num)
  exact ⟨⟨hP, by norm_num, by norm_num, by norm_num, hc⟩, main.1, main.2 hc⟩

/-- C6: the source's loop body moves the iterate in the direction opposite
to the claimed fixed-point update.  At dry-bulb 60 °C, pressure 101.325 kPa,
target humidity ratio computed from dew point `1730.63/7.07131 − 233.426`
(≈ 11.31 °C) and current iterate `1730.63/6.07131 − 233.426` (≈ 51.62 °C)
inside [dpt, dbt] (temperatures chosen so the Antoine equation is exactly
rational), the convergence test fails and the source's update
`w − 5·(target − f(w))` (with the clamp) strictly increases the iterate,
while the claimed update `w + 5·(target − f(w))` strictly decreases it. -/
theorem C6_update_sign_flipped :
    (1730.63 / 6.07131 - 233.426 : ℝ)
      < ScriptJs.wbtDptBody 60 (1730.63 / 7.07131 - 233.426) 101.325
          (ScriptJs.calculateHumidityRatioFromDewPoint
            (1730.63 / 7.07131 - 233.426) 101.325)
          (1730.63 / 6.07131 - 233.426) ∧
    (1730.63 / 6.07131 - 233.426 : ℝ)
      + (ScriptJs.calculateHumidityRatioFromDewPoint
            (1730.63 / 7.07131 - 233.426) 101.325
         - ScriptJs.calculateHumidityRatio 60 (1730.63 / 6.07131 - 233.426) 101.325) * 5
      < 1730.63 / 6.07131 - 233.426 := by
  constructor
  · simp only [ScriptJs.wbtDptBody, ScriptJs.wbtDptClamp, ScriptJs.calculateHumidityRatio,
      ScriptJs.calculateHumidityRatioFromDewPoint, ScriptJs.MW_RATIO]
    rw [sVP_T1, sVP_T2]
    split_ifs with hc h60 hdpt
    · rw [abs_lt] at hc
      norm_num at hc
    · norm_num
    · norm_num at hdpt
    · norm_num
  · simp only [ScriptJs.calculateHumidityRatio,
      ScriptJs.calculateHumidityRatioFromDewPoint, ScriptJs.MW_RATIO]
    rw [sVP_T1, sVP_T2]
    norm_num

/-- The saturated-vapor-pressure functions of the two sets agree. -/
theorem sVP_eqv : ScriptJs.saturatedVaporPressure = Part001.saturatedVaporPressure := rfl

/-- The barometric-pressure functions of the two sets agree. -/
theorem baro_eqv : ScriptJs.barometricPressure = Part001.barometricPressure := rfl

/-- The dbt+wbt humidity-ratio functions of the two sets agree. -/
theorem chr_eqv : ScriptJs.calculateHumidityRatio = Part001.calculateHumidityRatio := rfl

/-- The relative-humidity functions of the two sets agree. -/
theorem crh_eqv : ScriptJs.calculateRelativeHumidity = Part001.calculateRelativeHumidity := rfl

/-- The dew-point functions of the two sets agree. -/
theorem cdp_eqv : ScriptJs.calculateDewPoint = Part001.calculateDewPoint := rfl

/-- The specific-volume functions of the two sets agree. -/
theorem csv_eqv : ScriptJs.calculateSpecificVolume = Part001.calculateSpecificVolume := rfl

/-- The dbt+rh humidity-ratio functions of the two sets agree. -/
theorem chrrh_eqv :
    ScriptJs.calculateHumidityRatioFromDBTRH = Part001.calculateHumidityRatioFromDBTRH := rfl

/-- The dbt+rh wet-bulb solvers of the two sets agree. -/
theorem cwb_eqv :
    ScriptJs.calculateWetBulbFromDBTRH = Part001.calculateWetBulbFromDBTRH := rfl

/-- The dew-point humidity-ratio functions of the two sets agree. -/
theorem chrdpt_eqv :
    ScriptJs.calculateHumidityRatioFromDewPoint
      = Part001.calculateHumidityRatioFromDewPoint := rfl

/-- The dew-point relative-humidity functions of the two sets agree. -/
theorem crhdpt_eqv :
    ScriptJs.calculateRelativeHumidityFromDewPoint
      = Part001.calculateRelativeHumidityFromDewPoint := rfl

/-- The dbt+dpt wet-bulb solvers of the two sets agree. -/
theorem cwbdpt_eqv :
    ScriptJs.calculateWetBulbFromDBTDewPoint
      = Part001.calculateWetBulbFromDBTDewPoint := rfl

/-- The enthalpy functions of the two sets agree: `src/script.js` computes
`(1006·0.001)·T + W·(2501000·0.001 + 1.86·T)` and `src/unnamed/part_001`
the pre-reduced `1.006·T + W·(2501 + 1.86·T)`; the coefficients coincide in
exact arithmetic. -/
theorem enth_eqv : ScriptJs.calculateEnthalpy = Part001.calculateEnthalpy := by
  funext d h
  show ScriptJs.CP_AIR * ScriptJs.JOULE_TO_KILOJOULE * d
      + h * (ScriptJs.HVAP * ScriptJs.JOULE_TO_KILOJOULE + ScriptJs.CP_VAPOR * d)
    = 1.006 * d + h * (2501 + 1.86 * d)
  unfold ScriptJs.CP_AIR ScriptJs.JOULE_TO_KILOJOULE ScriptJs.HVAP ScriptJs.CP_VAPOR
  norm_num

/-- C10: for input kinds dbt_wbt, dbt_rh and dbt_dpt, the two
calculation-function sets return identical eight-field results at every
(value1, value2, altitude). -/
theorem C10_refinement (k : String) (v1 v2 alt : ℝ)
    (hk : k = "dbt_wbt" ∨ k = "dbt_rh" ∨ k = "dbt_dpt") :
    ScriptJs.calculatePsychrometricProperties k v1 v2 alt
      = Part001.calculatePsychrometricProperties k v1 v2 alt := by
  rcases hk with h | h | h <;> subst h <;>
    simp only [ScriptJs.calculatePsychrometricProperties,
      Part001.calculatePsychrometricProperties,
      ScriptJs.resolveRaw, Part001.resolveRaw,
      if_neg ne_rh_wbt, if_neg ne_dpt_wbt, if_neg ne_dpt_rh, if_true] <;>
    simp only [chr_eqv, crh_eqv, cdp_eqv, baro_eqv, chrrh_eqv, cwb_eqv,
      chrdpt_eqv, crhdpt_eqv, cwbdpt_eqv, enth_eqv, csv_eqv]

/-- C10 (witness): the two sets agree on the dbt_rh sample row
(30 °C, 65 %, altitude 500 m). -/
theorem C10_witness :
    ("dbt_rh" = "dbt_wbt" ∨ "dbt_rh" = "dbt_rh" ∨ "dbt_rh" = "dbt_dpt") ∧
    ScriptJs.calculatePsychrometricProperties "dbt_rh" 30 65 500
      = Part001.calculatePsychrometricProperties "dbt_rh" 30 65 500 :=
  ⟨Or.inr (Or.inl rfl), C10_refinement "dbt_rh" 30 65 500 (Or.inr (Or.inl rfl))⟩

/-- C2: solveDBTFromWBTRH never raises: it always returns a value, namely
the bounded Newton-Raphson iterate, unless the relative error of the final
humidity ratio against the target exceeds 5%, in which case it returns the
linear fallback `wbt + (100 − rh)/3`. -/
theorem C2_solveDBT_fallback_policy (wbt rh pressure : ℝ) :
    ScriptJs.solveDBTFromWBTRH wbt rh pressure =
      (if 0.05 <
          |ScriptJs.calculateHumidityRatio
              ((ScriptJs.newtonBody wbt pressure (ScriptJs.solveTargetHR wbt rh pressure))^[100]
                (wbt + (100 - rh) / 4)) wbt pressure
            - ScriptJs.solveTargetHR wbt rh pressure|
          / ScriptJs.solveTargetHR wbt rh pressure
       then wbt + (100 - rh) / 3
       else (ScriptJs.newtonBody wbt pressure (ScriptJs.solveTargetHR wbt rh pressure))^[100]
              (wbt + (100 - rh) / 4)) := rfl
